import Mathlib

/-!
Shallow embedding of src/perplexity-ask/index.ts: the upstream completion
client (performChatCompletion), the call-tool request handler, the POST
/messages route, and the SIGINT shutdown sweep, together with theorems
settling the claims about them.

JavaScript runtime values reaching the handler are modelled by the JVal
type, since the TypeScript types are erased at runtime and the code
itself guards only with Array.isArray. Exceptions are modelled by
Except String; the network is an oracle mapping the request body the code
sends to an outcome.
-/

/-- Model of a JSON runtime value, as it may appear in args.messages. -/
inductive JVal where
  | null
  | bool (b : Bool)
  | num (n : Int)
  | str (s : String)
  | arr (elems : List JVal)
  | obj

/-- Array.isArray check from the source. -/
def JVal.isArr : JVal → Bool
  | .arr _ => true
  | _ => false

/-- Decidable check that the first list is an initial segment of the second. -/
def strStartsWith : List Char → List Char → Bool
  | [], _ => true
  | _ :: _, [] => false
  | a :: as, b :: bs => a = b && strStartsWith as bs

/-- Decidable check that sub occurs contiguously inside the second list. -/
def strContainsAux (sub : List Char) : List Char → Bool
  | [] => sub.isEmpty
  | c :: cs => strStartsWith sub (c :: cs) || strContainsAux sub cs

/-- Decidable check that pat occurs as a contiguous substring of s. -/
def strContains (s pat : String) : Bool := strContainsAux pat.data s.data

/-- Concatenation of a list of strings, used to state formatting claims. -/
def strConcat : List String → String
  | [] => ""
  | s :: rest => s ++ strConcat rest

/-- Shape of the JSON value taken by data.citations in the parsed upstream
response: absent (undefined, short-circuits the truthiness check), present
but not an array (the truthy flag records JavaScript truthiness), or an
array of citation strings. -/
inductive CitationsField where
  | absent
  | notArray (truthy : Bool)
  | arr (cs : List String)

/-- Parsed JSON body of an upstream success response, as the code reads it:
data.choices[0].message.content (none models a shape that would make the
member access throw) and data.citations. -/
structure ChatData where
  firstChoiceContent : Option String
  citations : CitationsField

/-- Model of the fetch Response object: ok flag, status, statusText, the
result of response.text() and of response.json(), each of which may throw. -/
structure HttpResponse where
  ok : Bool
  status : Nat
  statusText : String
  textResult : Except String String
  jsonResult : Except String ChatData

/-- Outcome of the fetch call: the await either throws a network error or
yields a response object. -/
inductive FetchOutcome where
  | networkError (e : String)
  | response (r : HttpResponse)

/-- Request body the code constructs and sends upstream. -/
structure RequestBody where
  model : String
  messages : List JVal

/-- Body construction from performChatCompletion, lines 145 to 151 of
index.ts: the object holds exactly the model and the messages. -/
def requestBody (messages : List JVal) (model : String) : RequestBody :=
  { model := model, messages := messages }

/-- Line of the citations block written by the forEach callback:
bracketed one-based index, space, citation, newline. -/
def citationLine (i : Nat) (c : String) : String :=
  "[" ++ toString (i + 1) ++ "] " ++ c ++ "\n"

/-- Accumulating forEach loop over the citations, lines 194 to 196. -/
def appendCitationLines (acc : String) (cs : List String) : String :=
  cs.enum.foldl (fun m p => m ++ citationLine p.1 p.2) acc

/-- Citation formatting from performChatCompletion, lines 188 to 199: the
message content, and if data.citations is truthy, an array, and non-empty,
the header plus one line per citation. -/
def formatContent (content : String) (cf : CitationsField) : String :=
  match cf with
  | .arr cs =>
    if cs.length > 0 then
      appendCitationLines (content ++ "\n\nCitations:\n") cs
    else
      content
  | _ => content

/-- Fallback for the body text of a failed response, lines 169 to 174: the
result of response.text(), or the fixed string when that call throws. -/
def bestEffortErrorText : Except String String → String
  | .ok t => t
  | .error _ => "Unable to parse error response"

/-- Processing of the fetch outcome in performChatCompletion, lines 153 to
199: network errors, non-ok statuses and JSON parse failures are rethrown
with descriptive messages; on success the first choice content is
extracted and citations are appended. -/
def processOutcome : FetchOutcome → Except String String
  | .networkError e =>
    .error ("Network error while calling Perplexity API: " ++ e)
  | .response r =>
    if r.ok then
      match r.jsonResult with
      | .error jsonError =>
        .error ("Failed to parse JSON response from Perplexity API: " ++ jsonError)
      | .ok data =>
        match data.firstChoiceContent with
        | none => .error "TypeError: Cannot read properties of undefined"
        | some content => .ok (formatContent content data.citations)
    else
      .error ("Perplexity API error: " ++ toString r.status ++ " " ++
        r.statusText ++ "\n" ++ bestEffortErrorText r.textResult)

/-- performChatCompletion, lines 139 to 200: builds the request body from
the messages and the model, sends it (the net oracle maps the body the
code sends to the fetch outcome) and processes the outcome. -/
def performChatCompletion (messages : List JVal) (model : String)
    (net : RequestBody → FetchOutcome) : Except String String :=
  processOutcome (net (requestBody messages model))

/-- Arguments object of a call-tool request; the handler only ever reads
its messages member, none models the member being absent. -/
structure Args where
  messages : Option JVal

/-- Call-tool request params: tool name and the optional arguments object. -/
structure CallToolRequest where
  name : String
  arguments : Option Args

/-- One item of the content array of a tool response. -/
structure ContentItem where
  type : String
  text : String

/-- Tool response shape returned by the handler. -/
structure ToolResponse where
  content : List ContentItem
  isError : Bool

/-- Concatenated text of the content items of a response. -/
def ToolResponse.text (r : ToolResponse) : String :=
  strConcat (r.content.map ContentItem.text)

/-- Record of one invocation of the upstream client: the messages array and
the model it received. -/
structure UpstreamCall where
  messages : List JVal
  model : String

/-- Per-tool case body of the switch, lines 241 to 276: the Array.isArray
guard on args.messages, then the awaited upstream call whose result is
wrapped in a success response. Throws are the error side of the Except;
the second component records the upstream invocations made. -/
def runTool (toolName mdl : String) (args : Args)
    (complete : List JVal → String → Except String String) :
    Except String ToolResponse × List UpstreamCall :=
  match args.messages with
  | some (.arr msgs) =>
    match complete msgs mdl with
    | .ok result =>
      (.ok
        { content := [{ type := "text", text := result }]
          isError := false },
        [{ messages := msgs, model := mdl }])
    | .error e => (.error e, [{ messages := msgs, model := mdl }])
  | _ =>
    (.error ("Invalid arguments for " ++ toolName ++
      ": \x27messages\x27 must be an array"), [])

/-- Body of the call-tool handler before the catch, lines 236 to 283: the
guard on args, then the switch on the tool name, with the default case
returning an error-flagged response without throwing. -/
def callToolBody (req : CallToolRequest)
    (complete : List JVal → String → Except String String) :
    Except String ToolResponse × List UpstreamCall :=
  match req.arguments with
  | none => (.error "No arguments provided", [])
  | some args =>
    if req.name = "perplexity_ask" then
      runTool "perplexity_ask" "sonar-pro" args complete
    else if req.name = "perplexity_research" then
      runTool "perplexity_research" "sonar-deep-research" args complete
    else if req.name = "perplexity_reason" then
      runTool "perplexity_reason" "sonar-reasoning-pro" args complete
    else
      (.ok
        { content := [{ type := "text", text := "Unknown tool: " ++ req.name }]
          isError := true },
        [])

/-- Full call-tool handler, lines 234 to 296: the body wrapped in the
try/catch that converts any thrown error into an error-flagged response. -/
def handleCallTool (req : CallToolRequest)
    (complete : List JVal → String → Except String String) :
    ToolResponse × List UpstreamCall :=
  match callToolBody req complete with
  | (.ok resp, calls) => (resp, calls)
  | (.error e, calls) =>
    ({ content := [{ type := "text", text := "Error: " ++ e }]
       isError := true },
      calls)

/-- Static binding of each tool name to its upstream model identifier, read
off the three switch cases. -/
def toolModels : List (String × String) :=
  [("perplexity_ask", "sonar-pro"),
   ("perplexity_research", "sonar-deep-research"),
   ("perplexity_reason", "sonar-reasoning-pro")]

/-- Outcome of the POST /messages route: an error response with HTTP status
and JSON error body, the body dispatched to the transport of the session,
or the transport throwing during dispatch and a 500 being sent. -/
inductive PostResult where
  | errorResponse (status : Nat) (errorBody : String)
  | dispatched (sid : String)
  | dispatchFailed (sid : String) (status : Nat) (errorBody : String)

/-- POST /messages route handler, lines 352 to 374: a falsy sessionId query
parameter (absent or empty) yields 400; an unregistered sessionId yields
400; otherwise the body is handed to the registered transport, whose
failure is caught and answered with 500. The transports registry is the
list of registered session ids. -/
def postMessages (sessionId : Option String) (transports : List String)
    (handlePostMessage : String → Except String Unit) : PostResult :=
  match sessionId with
  | none => .errorResponse 400 "sessionId query parameter is required"
  | some sid =>
    if sid = "" then
      .errorResponse 400 "sessionId query parameter is required"
    else if sid ∈ transports then
      match handlePostMessage sid with
      | .ok _ => .dispatched sid
      | .error _ => .dispatchFailed sid 500 "Failed to handle message"
    else
      .errorResponse 400 "No transport found for sessionId"

/-- Observable state of the SIGINT sweep: the sessions whose close was
attempted in order, the registry entries left (close deletes its entry
only on success), the sessions whose close failure was logged, and whether
process exit was reached. -/
structure ShutdownState where
  attempted : List String
  remaining : List String
  logged : List String
  exited : Bool

/-- One iteration of the shutdown loop, lines 399 to 407: close the
transport, deleting the registry entry on success; a throw is caught and
logged and the loop continues. -/
def shutdownStep (close : String → Except String Unit)
    (acc : ShutdownState) (sid : String) : ShutdownState :=
  match close sid with
  | .ok _ =>
    { acc with
        attempted := acc.attempted ++ [sid]
        remaining := acc.remaining.erase sid }
  | .error _ =>
    { acc with
        attempted := acc.attempted ++ [sid]
        logged := acc.logged ++ [sid] }

/-- SIGINT handler, lines 395 to 411: sweep over every registered session,
then process exit. -/
def sigintHandler (transports : List String)
    (close : String → Except String Unit) : ShutdownState :=
  let fin := transports.foldl (shutdownStep close)
    { attempted := [], remaining := transports, logged := [], exited := false }
  { fin with exited := true }

/-- Predicate on the citations value stating it is absent, not an array, or
an empty array: exactly the inputs the formatting guard rejects. -/
def citationsInapplicable : CitationsField → Prop
  | .absent => True
  | .notArray _ => True
  | .arr cs => cs = []

/-- Boolean recording whether closing the given session throws. -/
def closeFailed (close : String → Except String Unit) (sid : String) : Bool :=
  match close sid with
  | .ok _ => false
  | .error _ => true

/-- Sample success response carrying the citation list of the worked
example in the claims. -/
def sampleCitationsResponse : HttpResponse :=
  { ok := true
    status := 200
    statusText := "OK"
    textResult := .ok ""
    jsonResult := .ok
      { firstChoiceContent := some "Answer"
        citations := .arr ["http://a", "http://b"] } }

/-- Network oracle always answering with the sample citations response. -/
def sampleCitationsNet : RequestBody → FetchOutcome :=
  fun _ => .response sampleCitationsResponse

/-- Sample success response with the citations member absent. -/
def samplePlainResponse : HttpResponse :=
  { ok := true
    status := 200
    statusText := "OK"
    textResult := .ok ""
    jsonResult := .ok
      { firstChoiceContent := some "Answer"
        citations := .absent } }

/-- Network oracle always answering with the plain sample response. -/
def samplePlainNet : RequestBody → FetchOutcome :=
  fun _ => .response samplePlainResponse

/-- Sample response with a non-success HTTP status. -/
def sampleFailResponse : HttpResponse :=
  { ok := false
    status := 500
    statusText := "Internal Server Error"
    textResult := .ok "upstream exploded"
    jsonResult := .error "not parsed" }

/-- Network oracle always answering with the failing sample response. -/
def sampleFailNet : RequestBody → FetchOutcome :=
  fun _ => .response sampleFailResponse

/-- Sample close callback that throws for session a and succeeds elsewhere. -/
def sampleClose : String → Except String Unit :=
  fun sid => if sid = "a" then .error "boom" else .ok ()

/-- Any list is an initial segment of itself followed by anything. -/
theorem strStartsWith_append : ∀ (l t : List Char), strStartsWith l (l ++ t) = true
  | [], _ => rfl
  | a :: as, t => by
    simp only [List.cons_append, strStartsWith, decide_eq_true_eq, Bool.and_eq_true]
    exact ⟨trivial, strStartsWith_append as t⟩

/-- The empty pattern occurs in every list. -/
theorem strContainsAux_nil : ∀ (l : List Char), strContainsAux [] l = true
  | [] => rfl
  | _ :: _ => by simp [strContainsAux, strStartsWith]

/-- A pattern occurs in any list that splits around it. -/
theorem strContainsAux_append :
    ∀ (a sub b : List Char), strContainsAux sub (a ++ sub ++ b) = true
  | [], sub, b => by
    cases sub with
    | nil => simpa using strContainsAux_nil b
    | cons c cs =>
      simp only [List.nil_append, List.cons_append, strContainsAux, Bool.or_eq_true]
      exact Or.inl (strStartsWith_append (c :: cs) b)
  | x :: xs, sub, b => by
    simp only [List.cons_append, strContainsAux, Bool.or_eq_true]
    exact Or.inr (strContainsAux_append xs sub b)

/-- strContains holds of any string equal to a split around the pattern. -/
theorem strContains_of_eq (s pre pat post : String)
    (h : s = pre ++ pat ++ post) : strContains s pat = true := by
  subst h
  unfold strContains
  rw [String.data_append, String.data_append]
  exact strContainsAux_append pre.data pat.data post.data

/-- strContains holds of a string with the pattern as final segment. -/
theorem strContains_append_right (a b : String) : strContains (a ++ b) b = true :=
  strContains_of_eq (a ++ b) a b "" (by rw [String.append_empty])

/-- The accumulating citation fold equals the accumulator followed by the
concatenation of the individual lines. -/
theorem foldl_citationLine_eq_strConcat :
    ∀ (l : List (Nat × String)) (acc : String),
      l.foldl (fun m p => m ++ citationLine p.1 p.2) acc =
        acc ++ strConcat (l.map fun p => citationLine p.1 p.2)
  | [], acc => by simp [strConcat]
  | p :: l, acc => by
    simp only [List.foldl_cons, List.map_cons, strConcat]
    rw [foldl_citationLine_eq_strConcat l (acc ++ citationLine p.1 p.2),
      String.append_assoc]

/-- C1: on HTTP success with first choice text t and a non-empty citation
list cs, performChatCompletion returns t followed by the blank line, the
Citations header, and one line per citation, the line at zero-based
position i being the bracketed one-based index i+1, a space, the citation,
and a newline. -/
theorem c1_success_appends_citation_block
    (msgs : List JVal) (mdl t : String) (cs : List String)
    (net : RequestBody → FetchOutcome) (r : HttpResponse)
    (hnet : net (requestBody msgs mdl) = .response r)
    (hok : r.ok = true)
    (hjson : r.jsonResult = .ok { firstChoiceContent := some t, citations := .arr cs })
    (hne : cs ≠ []) :
    performChatCompletion msgs mdl net =
      .ok (t ++ "\n\nCitations:\n" ++
        strConcat (cs.enum.map fun p => citationLine p.1 p.2)) := by
  unfold performChatCompletion processOutcome
  rw [hnet]
  simp only [hok, if_true, hjson, formatContent, appendCitationLines]
  rw [if_pos (List.length_pos.mpr hne), foldl_citationLine_eq_strConcat,
    String.append_assoc]

/-- Witness for C1 at the worked example of the claim: text Answer and
citations http://a and http://b produce the exact claimed string. -/
theorem c1_witness :
    performChatCompletion [] "sonar-pro" sampleCitationsNet =
      .ok "Answer\n\nCitations:\n[1] http://a\n[2] http://b\n" := by
  have h := c1_success_appends_citation_block [] "sonar-pro" "Answer"
    ["http://a", "http://b"] sampleCitationsNet sampleCitationsResponse
    rfl rfl rfl (by decide)
  rw [h]
  rfl

/-- C10: on HTTP success, when the citations member is absent, not an
array, or an empty array, performChatCompletion returns the first choice
text unchanged, with no citations block. -/
theorem c10_no_citation_block_when_inapplicable
    (msgs : List JVal) (mdl t : String) (cf : CitationsField)
    (net : RequestBody → FetchOutcome) (r : HttpResponse)
    (hnet : net (requestBody msgs mdl) = .response r)
    (hok : r.ok = true)
    (hjson : r.jsonResult = .ok { firstChoiceContent := some t, citations := cf })
    (hcf : citationsInapplicable cf) :
    performChatCompletion msgs mdl net = .ok t := by
  unfold performChatCompletion processOutcome
  rw [hnet]
  simp only [hok, if_true, hjson]
  cases cf with
  | absent => rfl
  | notArray b => rfl
  | arr cs =>
    have hcs : cs = [] := hcf
    subst hcs
    rfl

/-- Witness for C10: a response with the citations member absent yields the
bare text Answer. -/
theorem c10_witness :
    performChatCompletion [] "sonar-pro" samplePlainNet = .ok "Answer" :=
  c10_no_citation_block_when_inapplicable [] "sonar-pro" "Answer" .absent
    samplePlainNet samplePlainResponse rfl rfl rfl trivial

/-- Catch wrapper of the handler leaves the recorded upstream calls as the
body made them. -/
theorem handleCallTool_snd (req : CallToolRequest)
    (complete : List JVal → String → Except String String) :
    (handleCallTool req complete).2 = (callToolBody req complete).2 := by
  unfold handleCallTool
  rcases h : callToolBody req complete with ⟨exc, calls⟩
  cases exc <;> rfl

/-- With a messages array present, runTool records exactly one upstream
call carrying that array and the given model. -/
theorem runTool_arr_snd (tn mdl : String) (msgs : List JVal)
    (complete : List JVal → String → Except String String) :
    (runTool tn mdl { messages := some (.arr msgs) } complete).2 =
      [{ messages := msgs, model := mdl }] := by
  simp only [runTool]
  cases hc : complete msgs mdl <;> simp [hc]

/-- C2: when the arguments carry a messages array, the handler for each of
the three tools invokes the upstream client with exactly that array and
the model bound to the tool, and performChatCompletion sends upstream a
request body holding exactly that model and that messages list. -/
theorem c2_messages_and_model_forwarded_unchanged
    (name mdl : String) (msgs : List JVal)
    (complete : List JVal → String → Except String String)
    (hname : (name, mdl) ∈ toolModels) :
    (handleCallTool { name := name, arguments := some { messages := some (.arr msgs) } }
        complete).2 = [{ messages := msgs, model := mdl }] ∧
    (∀ net : RequestBody → FetchOutcome,
      performChatCompletion msgs mdl net =
        processOutcome (net { model := mdl, messages := msgs })) := by
  simp only [toolModels, List.mem_cons, List.not_mem_nil, or_false,
    Prod.mk.injEq] at hname
  refine ⟨?_, fun net => rfl⟩
  obtain ⟨rfl, rfl⟩ | ⟨rfl, rfl⟩ | ⟨rfl, rfl⟩ := hname <;>
    rw [handleCallTool_snd] <;>
      simp [callToolBody, runTool_arr_snd]

/-- Witness for C2: the perplexity_ask tool with one concrete message value
records exactly one upstream call with that value and sonar-pro. -/
theorem c2_witness :
    (handleCallTool
        { name := "perplexity_ask", arguments := some { messages := some (.arr [.str "hi"]) } }
        (fun _ _ => .ok "ok")).2 = [{ messages := [.str "hi"], model := "sonar-pro" }] ∧
    (∀ net : RequestBody → FetchOutcome,
      performChatCompletion [.str "hi"] "sonar-pro" net =
        processOutcome (net { model := "sonar-pro", messages := [.str "hi"] })) :=
  c2_messages_and_model_forwarded_unchanged "perplexity_ask" "sonar-pro"
    [.str "hi"] (fun _ _ => .ok "ok") (by simp [toolModels])

/-- Dispatch of the switch: a known tool name selects runTool with the
model identifier bound to it. -/
theorem callToolBody_known (name mdl : String) (args : Args)
    (complete : List JVal → String → Except String String)
    (hname : (name, mdl) ∈ toolModels) :
    callToolBody { name := name, arguments := some args } complete =
      runTool name mdl args complete := by
  simp only [toolModels, List.mem_cons, List.not_mem_nil, or_false,
    Prod.mk.injEq] at hname
  obtain ⟨rfl, rfl⟩ | ⟨rfl, rfl⟩ | ⟨rfl, rfl⟩ := hname <;> simp [callToolBody]

/-- With messages missing or not an array, runTool throws the descriptive
InvalidArguments error and records no upstream call. -/
theorem runTool_nonarray (tn mdl : String) (m : Option JVal)
    (complete : List JVal → String → Except String String)
    (hbad : ∀ msgs : List JVal, m ≠ some (.arr msgs)) :
    runTool tn mdl { messages := m } complete =
      (.error ("Invalid arguments for " ++ tn ++
        ": \x27messages\x27 must be an array"), []) := by
  cases m with
  | none => rfl
  | some j =>
    cases j with
    | arr elems => exact absurd rfl (hbad elems)
    | null => rfl
    | bool b => rfl
    | num n => rfl
    | str s => rfl
    | obj => rfl

/-- Counterexample to C3: a messages array whose single element is the
number 42, not a role and content pair, passes validation for
perplexity_ask: no InvalidArguments failure is produced and the upstream
client is invoked with that malformed list. -/
theorem c3_counterexample_malformed_element_reaches_upstream :
    (handleCallTool
        { name := "perplexity_ask", arguments := some { messages := some (.arr [.num 42]) } }
        (fun _ _ => .ok "ok")).2 = [{ messages := [.num 42], model := "sonar-pro" }] ∧
    (handleCallTool
        { name := "perplexity_ask", arguments := some { messages := some (.arr [.num 42]) } }
        (fun _ _ => .ok "ok")).1.isError = false := by
  exact ⟨rfl, rfl⟩

/-- C3 as amended: for a known tool, validation checks only that
args.messages is an array. Every array, whatever the shape of its
elements, passes and is forwarded to the upstream client unchanged, while
a missing or non-array messages value fails with the descriptive
InvalidArguments error and the upstream client is not invoked. -/
theorem c3_amended_validation_checks_array_only
    (name mdl : String)
    (complete : List JVal → String → Except String String)
    (hname : (name, mdl) ∈ toolModels) :
    (∀ msgs : List JVal,
      (handleCallTool { name := name, arguments := some { messages := some (.arr msgs) } }
          complete).2 = [{ messages := msgs, model := mdl }]) ∧
    (∀ m : Option JVal, (∀ msgs : List JVal, m ≠ some (.arr msgs)) →
      (handleCallTool { name := name, arguments := some { messages := m } }
          complete).1.isError = true ∧
      (handleCallTool { name := name, arguments := some { messages := m } }
          complete).2 = []) := by
  refine ⟨fun msgs => ?_, fun m hbad => ?_⟩
  · rw [handleCallTool_snd, callToolBody_known name mdl _ complete hname,
      runTool_arr_snd]
  · unfold handleCallTool
    rw [callToolBody_known name mdl _ complete hname,
      runTool_nonarray name mdl m complete hbad]
    exact ⟨rfl, rfl⟩

/-- Witness for the amended C3: for perplexity_research, the array with one
numeric element is forwarded, and a numeric messages value is rejected
without an upstream call. -/
theorem c3_amended_witness :
    (handleCallTool
        { name := "perplexity_research", arguments := some { messages := some (.arr [.num 42]) } }
        (fun _ _ => .ok "ok")).2 = [{ messages := [.num 42], model := "sonar-deep-research" }] ∧
    (handleCallTool
        { name := "perplexity_research", arguments := some { messages := some (.num 7) } }
        (fun _ _ => .ok "ok")).1.isError = true := by
  have h := c3_amended_validation_checks_array_only "perplexity_research"
    "sonar-deep-research" (fun _ _ => .ok "ok") (by simp [toolModels])
  exact ⟨h.1 [.num 42], (h.2 (some (.num 7)) (fun msgs hm => by cases hm)).1⟩

/-- Counterexample to C4: the call-tool request with unknown tool name nope
and no arguments is answered with isError true, but its text is the
no-arguments error, which does not contain the unknown name. -/
theorem c4_counterexample_unknown_tool_without_arguments :
    (handleCallTool { name := "nope", arguments := none }
        (fun _ _ => .ok "x")).1.isError = true ∧
    (handleCallTool { name := "nope", arguments := none }
        (fun _ _ => .ok "x")).1.text = "Error: No arguments provided" ∧
    strContains ((handleCallTool { name := "nope", arguments := none }
        (fun _ _ => .ok "x")).1.text) "nope" = false := by
  refine ⟨rfl, ?_, by decide⟩
  show strConcat ["Error: No arguments provided"] = _
  rw [strConcat, strConcat, String.append_empty]

/-- C4 as amended: for every call-tool request whose tool name is not one
of the three known tools, the handler answers with isError true and the
upstream client is never invoked; when an arguments object is present the
text is the unknown-tool message containing the literal unknown name,
while without arguments the text reports that no arguments were provided. -/
theorem c4_amended_unknown_tool_rejected
    (name : String) (args : Option Args)
    (complete : List JVal → String → Except String String)
    (hname : name ∉ ["perplexity_ask", "perplexity_research", "perplexity_reason"]) :
    ((handleCallTool { name := name, arguments := args } complete).1.isError = true ∧
     (handleCallTool { name := name, arguments := args } complete).2 = []) ∧
    (∀ a : Args, args = some a →
      (handleCallTool { name := name, arguments := args } complete).1.text =
        "Unknown tool: " ++ name ∧
      strContains ((handleCallTool { name := name, arguments := args } complete).1.text)
        name = true) := by
  simp only [List.mem_cons, List.not_mem_nil, or_false, not_or] at hname
  obtain ⟨h1, h2, h3⟩ := hname
  cases args with
  | none =>
    refine ⟨⟨rfl, rfl⟩, fun a ha => by cases ha⟩
  | some a =>
    have hbody : callToolBody { name := name, arguments := some a } complete =
        (.ok { content := [{ type := "text", text := "Unknown tool: " ++ name }]
               isError := true }, []) := by
      simp only [callToolBody]
      rw [if_neg h1, if_neg h2, if_neg h3]
    have hres : handleCallTool { name := name, arguments := some a } complete =
        ({ content := [{ type := "text", text := "Unknown tool: " ++ name }]
           isError := true }, []) := by
      unfold handleCallTool
      rw [hbody]
    have htext : (handleCallTool { name := name, arguments := some a } complete).1.text =
        "Unknown tool: " ++ name := by
      rw [hres]
      show strConcat ["Unknown tool: " ++ name] = _
      rw [strConcat, strConcat, String.append_empty]
    refine ⟨⟨by rw [hres], by rw [hres]⟩, fun b hb => ⟨htext, ?_⟩⟩
    rw [htext]
    exact strContains_append_right "Unknown tool: " name

/-- Witness for the amended C4: the unknown tool nope with an arguments
object yields the unknown-tool text containing nope and no upstream call. -/
theorem c4_amended_witness :
    ((handleCallTool { name := "nope", arguments := some { messages := none } }
        (fun _ _ => .ok "x")).1.isError = true ∧
     (handleCallTool { name := "nope", arguments := some { messages := none } }
        (fun _ _ => .ok "x")).2 = []) ∧
    (handleCallTool { name := "nope", arguments := some { messages := none } }
        (fun _ _ => .ok "x")).1.text = "Unknown tool: " ++ "nope" ∧
    strContains ((handleCallTool { name := "nope", arguments := some { messages := none } }
        (fun _ _ => .ok "x")).1.text) "nope" = true := by
  have h := c4_amended_unknown_tool_rejected "nope" (some { messages := none })
    (fun _ _ => .ok "x") (by decide)
  exact ⟨h.1, h.2 { messages := none } rfl⟩

/-- Text of a response holding a single text content item is that text. -/
theorem text_singleton (s : String) (b : Bool) :
    (ToolResponse.mk [{ type := "text", text := s }] b).text = s := by
  show strConcat [s] = s
  rw [strConcat, strConcat, String.append_empty]

/-- C5: for any of the three tools, when the arguments object carries a
messages member that is missing or not an array, the handler answers with
isError true, the text names the messages field, and the upstream client
is never invoked. -/
theorem c5_missing_or_nonarray_messages_rejected
    (name mdl : String) (m : Option JVal)
    (complete : List JVal → String → Except String String)
    (hname : (name, mdl) ∈ toolModels)
    (hbad : ∀ msgs : List JVal, m ≠ some (.arr msgs)) :
    (handleCallTool { name := name, arguments := some { messages := m } }
        complete).1.isError = true ∧
    (handleCallTool { name := name, arguments := some { messages := m } }
        complete).2 = [] ∧
    strContains ((handleCallTool { name := name, arguments := some { messages := m } }
        complete).1.text) "messages" = true := by
  have hres : handleCallTool { name := name, arguments := some { messages := m } }
      complete =
      (ToolResponse.mk
        [ContentItem.mk "text" ("Error: " ++ ("Invalid arguments for " ++ name ++
          ": \x27messages\x27 must be an array"))] true, []) := by
    unfold handleCallTool
    rw [callToolBody_known name mdl _ complete hname,
      runTool_nonarray name mdl m complete hbad]
  refine ⟨by rw [hres], by rw [hres], ?_⟩
  rw [hres]
  show strContains ((ToolResponse.mk _ _).text) "messages" = true
  rw [text_singleton]
  have hsplit : (": \x27messages\x27 must be an array" : String) =
      ": \x27" ++ "messages" ++ "\x27 must be an array" := by decide
  rw [hsplit]
  exact strContains_of_eq _
    ("Error: " ++ ("Invalid arguments for " ++ name) ++ ": \x27")
    "messages" "\x27 must be an array" (by simp [String.append_assoc])

/-- Witness for C5: perplexity_reason called with a numeric messages value
is rejected with a text naming messages and no upstream call. -/
theorem c5_witness :
    (handleCallTool { name := "perplexity_reason", arguments := some { messages := some (.num 3) } }
        (fun _ _ => .ok "x")).1.isError = true ∧
    (handleCallTool { name := "perplexity_reason", arguments := some { messages := some (.num 3) } }
        (fun _ _ => .ok "x")).2 = [] ∧
    strContains ((handleCallTool { name := "perplexity_reason", arguments := some { messages := some (.num 3) } }
        (fun _ _ => .ok "x")).1.text) "messages" = true :=
  c5_missing_or_nonarray_messages_rejected "perplexity_reason" "sonar-reasoning-pro"
    (some (.num 3)) (fun _ _ => .ok "x") (by simp [toolModels])
    (fun msgs hm => by cases hm)

/-- With a messages array present and a throwing upstream call, runTool
rethrows and still records the upstream invocation. -/
theorem runTool_arr_error (tn mdl : String) (msgs : List JVal)
    (complete : List JVal → String → Except String String) (e : String)
    (hc : complete msgs mdl = .error e) :
    runTool tn mdl { messages := some (.arr msgs) } complete =
      (.error e, [{ messages := msgs, model := mdl }]) := by
  simp only [runTool, hc]

/-- For a known tool with a messages array, a throwing upstream call is
caught and answered with the error-prefixed text. -/
theorem handleCallTool_known_error (name mdl : String) (msgs : List JVal)
    (complete : List JVal → String → Except String String) (e : String)
    (hname : (name, mdl) ∈ toolModels)
    (hc : complete msgs mdl = .error e) :
    handleCallTool { name := name, arguments := some { messages := some (.arr msgs) } }
        complete =
      (ToolResponse.mk [ContentItem.mk "text" ("Error: " ++ e)] true,
        [{ messages := msgs, model := mdl }]) := by
  unfold handleCallTool
  rw [callToolBody_known name mdl _ complete hname,
    runTool_arr_error name mdl msgs complete e hc]

/-- C6: when the upstream HTTP response has a non-success status, the
handler result for any of the three tools has isError true and its text is
the single descriptive error containing the numeric status code, the
status text, and the best-effort response body text. -/
theorem c6_nonsuccess_status_surfaced
    (name mdl : String) (msgs : List JVal)
    (net : RequestBody → FetchOutcome) (r : HttpResponse)
    (hname : (name, mdl) ∈ toolModels)
    (hnet : net (requestBody msgs mdl) = .response r)
    (hok : r.ok = false) :
    (handleCallTool { name := name, arguments := some { messages := some (.arr msgs) } }
        (fun ms md => performChatCompletion ms md net)).1.isError = true ∧
    (handleCallTool { name := name, arguments := some { messages := some (.arr msgs) } }
        (fun ms md => performChatCompletion ms md net)).1.text =
      "Error: " ++ ("Perplexity API error: " ++ toString r.status ++ " " ++
        r.statusText ++ "\n" ++ bestEffortErrorText r.textResult) ∧
    strContains ((handleCallTool { name := name, arguments := some { messages := some (.arr msgs) } }
        (fun ms md => performChatCompletion ms md net)).1.text) (toString r.status) = true ∧
    strContains ((handleCallTool { name := name, arguments := some { messages := some (.arr msgs) } }
        (fun ms md => performChatCompletion ms md net)).1.text) r.statusText = true ∧
    strContains ((handleCallTool { name := name, arguments := some { messages := some (.arr msgs) } }
        (fun ms md => performChatCompletion ms md net)).1.text)
      (bestEffortErrorText r.textResult) = true := by
  have hcomp : performChatCompletion msgs mdl net =
      .error ("Perplexity API error: " ++ toString r.status ++ " " ++
        r.statusText ++ "\n" ++ bestEffortErrorText r.textResult) := by
    unfold performChatCompletion processOutcome
    rw [hnet]
    simp [hok]
  have hres := handleCallTool_known_error name mdl msgs
    (fun ms md => performChatCompletion ms md net) _ hname hcomp
  rw [hres, text_singleton]
  refine ⟨rfl, rfl, ?_, ?_, ?_⟩
  · exact strContains_of_eq _ ("Error: " ++ "Perplexity API error: ")
      (toString r.status)
      (" " ++ r.statusText ++ "\n" ++ bestEffortErrorText r.textResult)
      (by simp [String.append_assoc]; rw [← String.append_assoc]; simp)
  · exact strContains_of_eq _
      ("Error: " ++ "Perplexity API error: " ++ toString r.status ++ " ")
      r.statusText ("\n" ++ bestEffortErrorText r.textResult)
      (by simp [String.append_assoc]; rw [← String.append_assoc]; simp)
  · exact strContains_of_eq _
      ("Error: " ++ "Perplexity API error: " ++ toString r.status ++ " " ++
        r.statusText ++ "\n")
      (bestEffortErrorText r.textResult) ""
      (by simp [String.append_assoc, String.append_empty]; rw [← String.append_assoc]; simp)

/-- Witness for C6: the sample 500 response surfaces through perplexity_ask
as an error-flagged result containing status, status text and body text. -/
theorem c6_witness :
    (handleCallTool { name := "perplexity_ask", arguments := some { messages := some (.arr []) } }
        (fun ms md => performChatCompletion ms md sampleFailNet)).1.isError = true ∧
    (handleCallTool { name := "perplexity_ask", arguments := some { messages := some (.arr []) } }
        (fun ms md => performChatCompletion ms md sampleFailNet)).1.text =
      "Error: " ++ ("Perplexity API error: " ++ toString sampleFailResponse.status ++ " " ++
        sampleFailResponse.statusText ++ "\n" ++ bestEffortErrorText sampleFailResponse.textResult) ∧
    strContains ((handleCallTool { name := "perplexity_ask", arguments := some { messages := some (.arr []) } }
        (fun ms md => performChatCompletion ms md sampleFailNet)).1.text)
      (toString sampleFailResponse.status) = true ∧
    strContains ((handleCallTool { name := "perplexity_ask", arguments := some { messages := some (.arr []) } }
        (fun ms md => performChatCompletion ms md sampleFailNet)).1.text)
      sampleFailResponse.statusText = true ∧
    strContains ((handleCallTool { name := "perplexity_ask", arguments := some { messages := some (.arr []) } }
        (fun ms md => performChatCompletion ms md sampleFailNet)).1.text)
      (bestEffortErrorText sampleFailResponse.textResult) = true :=
  c6_nonsuccess_status_surfaced "perplexity_ask" "sonar-pro" [] sampleFailNet
    sampleFailResponse (by simp [toolModels]) rfl rfl

/-- Every non-throwing runTool result carries a single text content item. -/
theorem runTool_ok_shape (tn mdl : String) (m : Option JVal)
    (complete : List JVal → String → Except String String)
    (resp : ToolResponse) (calls : List UpstreamCall)
    (h : runTool tn mdl { messages := m } complete = (.ok resp, calls)) :
    ∃ s : String, resp.content = [{ type := "text", text := s }] := by
  cases m with
  | none => simp [runTool] at h
  | some j =>
    cases j with
    | arr msgs =>
      simp only [runTool] at h
      cases hc : complete msgs mdl with
      | ok result =>
        rw [hc] at h
        simp only [Prod.mk.injEq, Except.ok.injEq] at h
        obtain ⟨hr, hcalls⟩ := h
        subst hr
        exact ⟨result, rfl⟩
      | error e =>
        rw [hc] at h
        simp at h
    | null => simp [runTool] at h
    | bool b => simp [runTool] at h
    | num n => simp [runTool] at h
    | str s => simp [runTool] at h
    | obj => simp [runTool] at h

/-- Every non-throwing handler body result carries a single text content
item. -/
theorem callToolBody_ok_shape (req : CallToolRequest)
    (complete : List JVal → String → Except String String)
    (resp : ToolResponse) (calls : List UpstreamCall)
    (h : callToolBody req complete = (.ok resp, calls)) :
    ∃ s : String, resp.content = [{ type := "text", text := s }] := by
  rcases req with ⟨name, args⟩
  cases args with
  | none => simp [callToolBody] at h
  | some a =>
    rcases a with ⟨m⟩
    simp only [callToolBody] at h
    split at h
    · exact runTool_ok_shape _ _ m complete resp calls h
    · split at h
      · exact runTool_ok_shape _ _ m complete resp calls h
      · split at h
        · exact runTool_ok_shape _ _ m complete resp calls h
        · simp only [Prod.mk.injEq, Except.ok.injEq] at h
          obtain ⟨hr, hcalls⟩ := h
          subst hr
          exact ⟨"Unknown tool: " ++ name, rfl⟩

/-- C7: for every call-tool request, the handler result always has the
uniform shape of a single text content item, and whenever the body throws,
the catch converts the thrown message into an error-flagged response of
that shape instead of propagating. -/
theorem c7_all_failures_become_uniform_responses
    (req : CallToolRequest)
    (complete : List JVal → String → Except String String) :
    (∃ s : String, (handleCallTool req complete).1.content =
      [{ type := "text", text := s }]) ∧
    (∀ (e : String) (calls : List UpstreamCall),
      callToolBody req complete = (.error e, calls) →
      handleCallTool req complete =
        (ToolResponse.mk [ContentItem.mk "text" ("Error: " ++ e)] true, calls)) := by
  constructor
  · rcases hb : callToolBody req complete with ⟨exc, calls⟩
    cases exc with
    | ok resp =>
      obtain ⟨s, hs⟩ := callToolBody_ok_shape req complete resp calls hb
      refine ⟨s, ?_⟩
      unfold handleCallTool
      rw [hb]
      exact hs
    | error e =>
      refine ⟨"Error: " ++ e, ?_⟩
      unfold handleCallTool
      rw [hb]
  · intro e calls h
    unfold handleCallTool
    rw [h]

/-- Witness for C7: the missing-arguments throw for perplexity_ask is
caught and answered as an error-flagged single-text response. -/
theorem c7_witness :
    handleCallTool { name := "perplexity_ask", arguments := none } (fun _ _ => .ok "x") =
      (ToolResponse.mk [ContentItem.mk "text" ("Error: " ++ "No arguments provided")] true,
        []) :=
  (c7_all_failures_become_uniform_responses
    { name := "perplexity_ask", arguments := none } (fun _ _ => .ok "x")).2
    "No arguments provided" [] rfl

/-- C8: a POST to /messages with the sessionId query parameter missing is
answered 400 with the JSON error body naming the parameter; a sessionId
with no registered transport is answered 400 with a JSON error body, never
a crash; and the body is dispatched to a transport only when that
sessionId is registered. -/
theorem c8_post_messages_session_guards
    (sessionId : Option String) (transports : List String)
    (hpm : String → Except String Unit) :
    (sessionId = none →
      postMessages sessionId transports hpm =
        .errorResponse 400 "sessionId query parameter is required") ∧
    (∀ sid : String, sessionId = some sid → sid ∉ transports →
      ∃ b : String, postMessages sessionId transports hpm = .errorResponse 400 b) ∧
    (∀ sid : String,
      (postMessages sessionId transports hpm = .dispatched sid ∨
        postMessages sessionId transports hpm =
          .dispatchFailed sid 500 "Failed to handle message") →
      sid ∈ transports) := by
  refine ⟨?_, ?_, ?_⟩
  · intro h
    subst h
    rfl
  · intro sid hs hmem
    subst hs
    by_cases he : sid = ""
    · exact ⟨"sessionId query parameter is required", by simp [postMessages, he]⟩
    · exact ⟨"No transport found for sessionId", by simp [postMessages, he, hmem]⟩
  · intro sid hdisp
    cases sessionId with
    | none => rcases hdisp with h | h <;> cases h
    | some sid0 =>
      by_cases he : sid0 = ""
      · simp only [postMessages, he, if_pos rfl] at hdisp
        rcases hdisp with h | h <;> cases h
      · by_cases hmem : sid0 ∈ transports
        · have hkey : sid = sid0 := by
            simp only [postMessages, if_neg he, if_pos hmem] at hdisp
            cases hh : hpm sid0 with
            | ok u =>
              rw [hh] at hdisp
              rcases hdisp with h | h <;> (cases h; try rfl)
            | error e =>
              rw [hh] at hdisp
              rcases hdisp with h | h <;> (cases h; try rfl)
          rw [hkey]
          exact hmem
        · simp only [postMessages, if_neg he, if_neg hmem] at hdisp
          rcases hdisp with h | h <;> cases h

/-- Witness for C8: a sessionId that was never registered is answered with
a 400 JSON error body. -/
theorem c8_witness :
    ∃ b : String, postMessages (some "abc") ["x"] (fun _ => .ok ()) =
      .errorResponse 400 b :=
  (c8_post_messages_session_guards (some "abc") ["x"] (fun _ => .ok ())).2.1
    "abc" rfl (by decide)

/-- The shutdown fold attempts a close for every session, in order, no
matter which closes fail. -/
theorem shutdown_foldl_attempted (close : String → Except String Unit) :
    ∀ (ts : List String) (acc : ShutdownState),
      (ts.foldl (shutdownStep close) acc).attempted = acc.attempted ++ ts
  | [], acc => by simp
  | t :: ts, acc => by
    rw [List.foldl_cons, shutdown_foldl_attempted close ts]
    unfold shutdownStep
    cases close t <;> simp

/-- The shutdown fold logs exactly the sessions whose close failed. -/
theorem shutdown_foldl_logged (close : String → Except String Unit) :
    ∀ (ts : List String) (acc : ShutdownState),
      (ts.foldl (shutdownStep close) acc).logged =
        acc.logged ++ ts.filter (closeFailed close)
  | [], acc => by simp
  | t :: ts, acc => by
    rw [List.foldl_cons, shutdown_foldl_logged close ts]
    unfold shutdownStep closeFailed
    cases hc : close t <;> simp [List.filter_cons, closeFailed, hc]

/-- C9: the SIGINT handler attempts to close every registered session in
registry order regardless of failures, logs every session whose close
throws while continuing the sweep, and reaches process exit only after the
sweep is complete. -/
theorem c9_shutdown_closes_all_best_effort
    (transports : List String) (close : String → Except String Unit) :
    (sigintHandler transports close).attempted = transports ∧
    (sigintHandler transports close).exited = true ∧
    (∀ (sid : String) (e : String), sid ∈ transports → close sid = .error e →
      sid ∈ (sigintHandler transports close).logged) := by
  refine ⟨?_, rfl, ?_⟩
  · show (transports.foldl (shutdownStep close) _).attempted = transports
    rw [shutdown_foldl_attempted]
    simp
  · intro sid e hmem hfail
    show sid ∈ (transports.foldl (shutdownStep close) _).logged
    rw [shutdown_foldl_logged]
    simp only [List.nil_append, List.mem_filter]
    exact ⟨hmem, by simp [closeFailed, hfail]⟩

/-- Witness for C9: with sessions a and b and a close that throws on a,
both closes are attempted, a is logged, and exit is reached. -/
theorem c9_witness :
    (sigintHandler ["a", "b"] sampleClose).attempted = ["a", "b"] ∧
    (sigintHandler ["a", "b"] sampleClose).exited = true ∧
    "a" ∈ (sigintHandler ["a", "b"] sampleClose).logged :=
  ⟨(c9_shutdown_closes_all_best_effort ["a", "b"] sampleClose).1,
   (c9_shutdown_closes_all_best_effort ["a", "b"] sampleClose).2.1,
   (c9_shutdown_closes_all_best_effort ["a", "b"] sampleClose).2.2 "a" "boom"
     (by decide) rfl⟩
